import Mathlib

/-!
Verification of the RenGen retrieval-and-validation scripts.

The repository consists of three near-duplicate scripts that fetch the CBS
dataset 82610ENG over a paginated OData API, classify records into three
energy-source categories, aggregate them per year, and compare the result
against a hard-coded reference table:

  fetch_cbs_data.py            (static label/code mapping, manual fallback fetch)
  fetch_cbs_renewable.py       (empirical key discovery, typed fetch, sys.exit)
  fetch_cbs_renewable_data.py  (per-source filtered fetch, unit scaling)

This file is a shallow embedding of the logic of those scripts.  Python and
pandas scalars are modelled as follows: floats become rationals, a pandas NaN
cell is `Option.none`, a raised exception is `Except.error`, and the network
is a trace of responses consumed one HTTP request at a time.  String
primitives used by the scripts (strip, substring containment, replace) are
given executable list-of-characters implementations mirroring the Python
semantics on the ASCII inputs this dataset uses.
-/

set_option maxRecDepth 4000

deriving instance DecidableEq for Except

namespace RenGen

/-! ## Python scalar values and basic string primitives -/

/-- A loosely typed cell value as it arrives from the JSON body: a number,
a string, or null (which pandas turns into NaN). -/
inductive PyVal where
  | num (q : ℚ)
  | str (s : String)
  | none
deriving DecidableEq

/-- Numeric value of a list of ASCII digit characters, most significant first. -/
def digitsVal (ds : List Char) : Int :=
  ds.foldl (fun a c => a * 10 + ((c.toNat : Int) - 48)) 0

/-- Python `str.strip()`: remove leading and trailing whitespace characters.
Modelled on ASCII whitespace via `Char.isWhitespace`. -/
def stripList (l : List Char) : List Char :=
  ((l.dropWhile Char.isWhitespace).reverse.dropWhile Char.isWhitespace).reverse

/-- Python `str.strip()` at the `String` level. -/
def pyStrip (s : String) : String :=
  String.mk (stripList s.toList)

/-- Python `int(s)` for a plain decimal string: surrounding whitespace, an
optional sign, then one or more ASCII digits.  `Option.none` models a raised
`ValueError`.  (Underscore separators and non-ASCII digits, which CPython
also accepts, do not occur in this dataset and are not modelled.) -/
def pyIntList (l : List Char) : Option Int :=
  match stripList l with
  | [] => Option.none
  | c :: rest =>
    if c == '-' then
      if !rest.isEmpty && rest.all Char.isDigit then some (-(digitsVal rest)) else Option.none
    else if c == '+' then
      if !rest.isEmpty && rest.all Char.isDigit then some (digitsVal rest) else Option.none
    else if (c :: rest).all Char.isDigit then some (digitsVal (c :: rest)) else Option.none

/-! ## Period parsers -/

/-- Test for the substring "JJ00", Python `"JJ00" in p`. -/
def containsJJ00 : List Char → Bool
  | [] => false
  | c :: rest => (c == 'J' && rest.take 3 == ['J', '0', '0']) || containsJJ00 rest

/-- Python `p.replace("JJ00", "")`: delete every non-overlapping occurrence of
"JJ00", scanning left to right. -/
def removeJJ00 : List Char → List Char
  | a :: b :: c :: d :: rest =>
    if a == 'J' && b == 'J' && c == '0' && d == '0' then removeJJ00 rest
    else a :: removeJJ00 (b :: c :: d :: rest)
  | l => l

/-- The `clean_year` helper of fetch_cbs_data.py (lines 126-132): strip the
period string; a pure 4-digit numeral is a year; otherwise, when the string
contains "JJ00", delete those occurrences and feed the remainder to `int`
(whose `ValueError` propagates, modelled by `Except.error`); anything else
gives no year. -/
def clean_year (period : String) : Except Unit (Option Int) :=
  let p := stripList period.toList
  if p.all Char.isDigit && p.length == 4 then Except.ok (some (digitsVal p))
  else if containsJJ00 p then
    match pyIntList (removeJJ00 p) with
    | some n => Except.ok (some n)
    | Option.none => Except.error ()
  else Except.ok Option.none

/-- The `year_from_period` helper of fetch_cbs_renewable.py (lines 102-105):
`re.match` of the pattern `(\d{4})JJ\d+` against the stripped period string,
returning the leading 4-digit group on a match and `None` otherwise.  A
`re.match` only anchors at the start, so trailing characters after the first
digit following "JJ" are ignored. -/
def year_from_period (period : String) : Option Int :=
  match stripList period.toList with
  | a :: b :: c :: d :: j₁ :: j₂ :: e :: _ =>
    if a.isDigit && b.isDigit && c.isDigit && d.isDigit && j₁ == 'J' && j₂ == 'J' && e.isDigit then
      some (digitsVal [a, b, c, d])
    else Option.none
  | _ => Option.none

/-! ## The network model

A fetch run interacts with the network through a sequence of HTTP GET
requests.  We model the network as a trace: a list whose head is the response
of the next request issued.  A response either succeeds with a parsed JSON
body (a "value" record array, absent modelled as empty, and an optional
continuation link) or fails with a connection error or timeout.  A request
beyond the end of the trace behaves like a connection error. -/

/-- A parsed JSON page body. -/
structure Body (R : Type) where
  value : List R
  nextLink : Option String
deriving DecidableEq

/-- Outcome of one HTTP GET: a parsed body, or a connection error / timeout.
HTTP status errors other than the retried 5xx family are not modelled. -/
inductive HttpResult (R : Type) where
  | ok (body : Body R)
  | err
deriving DecidableEq

/-- Result of a whole fetch: the accumulated records, a fatal abort (an
uncaught exception), or exhaustion of the page fuel bound used to keep the
model total. -/
inductive FetchOutcome (R : Type) where
  | success (records : List R)
  | fatal
  | outOfFuel
deriving DecidableEq

/-- Python truthiness of the loop variable `url`: `None` and the empty string
are falsy, any other string is truthy. -/
def truthy : Option String → Bool
  | Option.none => false
  | some s => !s.toList.isEmpty

/-- The inner `for attempt in range(5)` loop of `_get_json` in
fetch_cbs_renewable.py (lines 76-88): try the request; on a connection error
or timeout sleep `2 ** (attempt + 1)` seconds and retry; after the fifth
failure the `for`-`else` raises `RuntimeError` (modelled by `Option.none`).
The function returns the fetched body with the rest of the trace, paired
with the list of back-off sleeps performed, in seconds.  It is always
entered with fuel 5; a fuel of `n + 1` corresponds to attempt `4 - n`. -/
def getJsonAttempts {R : Type} : List (HttpResult R) → Nat → Option (Body R × List (HttpResult R)) × List Nat
  | _, 0 => (Option.none, [])
  | HttpResult.ok b :: rest, _ + 1 => (some (b, rest), [])
  | HttpResult.err :: rest, n + 1 =>
    let p := getJsonAttempts rest n
    (p.1, 2 ^ (5 - n) :: p.2)
  | [], n + 1 =>
    let p := getJsonAttempts ([] : List (HttpResult R)) n
    (p.1, 2 ^ (5 - n) :: p.2)

/-- The outer `while url:` pagination loop of `_get_json` (lines 75-97):
fetch the current page with up to five attempts, append its "value" array to
the accumulator, and continue with the `odata.nextLink` field; a missing or
empty link ends the loop.  `fuel` bounds the number of pages so that the
model is total; every theorem supplies enough fuel. -/
def getJsonLoop {R : Type} : Nat → Option String → List (HttpResult R) → List R → FetchOutcome R
  | 0, url, _, acc =>
    if truthy url then FetchOutcome.outOfFuel else FetchOutcome.success acc
  | fuel + 1, url, tr, acc =>
    if truthy url then
      match getJsonAttempts tr 5 with
      | (some (b, rest), _) => getJsonLoop fuel b.nextLink rest (acc ++ b.value)
      | (Option.none, _) => FetchOutcome.fatal
    else FetchOutcome.success acc

/-- The `_get_json` entry point: start at the given url with an empty
accumulator. -/
def get_json {R : Type} (url : String) (tr : List (HttpResult R)) (fuel : Nat) : FetchOutcome R :=
  getJsonLoop fuel (some url) tr []

/-- Replace every occurrence of "https" by "http" in a character list,
Python `url.replace("https", "http")`. -/
def replaceHttps : List Char → List Char
  | s :: t₁ :: t₂ :: p :: u :: rest =>
    if s == 'h' && t₁ == 't' && t₂ == 't' && p == 'p' && u == 's' then
      'h' :: 't' :: 't' :: 'p' :: replaceHttps rest
    else s :: replaceHttps (t₁ :: t₂ :: p :: u :: rest)
  | l => l

/-- The next-link normalisation of `fetch_data_manually` in fetch_cbs_data.py
(lines 61-63): if the continuation url starts with "https", downgrade it to
"http". -/
def fixScheme (u : String) : String :=
  if u.toList.take 5 == ['h', 't', 't', 'p', 's'] then String.mk (replaceHttps u.toList)
  else u

/-- The pagination loop of `fetch_data_manually` in fetch_cbs_data.py
(lines 46-70).  There is no retry: the `except` clause re-raises the first
exception, aborting the whole fetch (`FetchOutcome.fatal`). -/
def fetch_data_manually {R : Type} : Nat → Option String → List (HttpResult R) → List R → FetchOutcome R
  | 0, url, _, acc =>
    if truthy url then FetchOutcome.outOfFuel else FetchOutcome.success acc
  | fuel + 1, url, tr, acc =>
    if truthy url then
      match tr with
      | HttpResult.ok b :: rest =>
        fetch_data_manually fuel (b.nextLink.map fixScheme) rest (acc ++ b.value)
      | _ => FetchOutcome.fatal
    else FetchOutcome.success acc

/-- The `fetch_with_retry` helper of fetch_cbs_renewable_data.py
(lines 46-71), with its default arguments `max_retries = 3` and `delay = 2`:
on any exception sleep a constant 2 seconds and retry, except after the last
attempt, which re-raises (modelled by `Option.none`).  Returns the parsed
body with the rest of the trace, paired with the sleeps performed. -/
def fetch_with_retry {R : Type} : List (HttpResult R) → Nat → Option (Body R × List (HttpResult R)) × List Nat
  | _, 0 => (Option.none, [])
  | HttpResult.ok b :: rest, _ + 1 => (some (b, rest), [])
  | _, 1 => (Option.none, [])
  | HttpResult.err :: rest, n + 2 =>
    let p := fetch_with_retry rest (n + 1)
    (p.1, 2 :: p.2)
  | [], n + 2 =>
    let p := fetch_with_retry ([] : List (HttpResult R)) (n + 1)
    (p.1, 2 :: p.2)

/-- Chain condition on a list of page bodies: every page except the last has
a truthy continuation link, and the last has none. -/
def chainOk {R : Type} : List (Body R) → Bool
  | [] => true
  | [b] => !truthy b.nextLink
  | b :: b' :: rest => truthy b.nextLink && chainOk (b' :: rest)

/-- Network trace serving the given pages in order, with `errs[i]` connection
errors immediately before page `i` succeeds. -/
def traceOf {R : Type} (pages : List (Body R)) (errs : List Nat) : List (HttpResult R) :=
  (List.zipWith (fun e b => List.replicate e HttpResult.err ++ [HttpResult.ok b]) errs pages).flatten

/-! ## Numeric coercion (fetch_cbs_data.py lines 162-165) -/

/-- Numeric value of a digit list as a rational. -/
def digitsValQ (ds : List Char) : ℚ :=
  ((digitsVal ds : Int) : ℚ)

/-- Unsigned decimal literal: digits with an optional fractional part. -/
def parseUnsigned (l : List Char) : Option ℚ :=
  match l.splitOn '.' with
  | [ip] =>
    if !ip.isEmpty && ip.all Char.isDigit then some (digitsValQ ip) else Option.none
  | [ip, fp] =>
    if (ip ++ fp).all Char.isDigit && !(ip.isEmpty && fp.isEmpty) then
      some (digitsValQ ip + digitsValQ fp / (10 : ℚ) ^ fp.length)
    else Option.none
  | _ => Option.none

/-- A best-effort numeric parse of a string, as performed by
`pd.to_numeric(..., errors="coerce")`: surrounding whitespace, an optional
sign, then a plain decimal literal; anything else coerces to NaN
(`Option.none`).  Exponent notation, which pandas also accepts, does not
occur in this dataset and is not modelled. -/
def parseDecimal (s : String) : Option ℚ :=
  match stripList s.toList with
  | '-' :: rest => (parseUnsigned rest).map Neg.neg
  | '+' :: rest => parseUnsigned rest
  | l => parseUnsigned l

/-- `pd.to_numeric(v, errors="coerce")`: numbers pass through, strings are
parsed, null and unparseable strings become NaN. -/
def toNumericCoerce : PyVal → Option ℚ
  | PyVal.num q => some q
  | PyVal.str s => parseDecimal s
  | PyVal.none => Option.none

/-- `pd.to_numeric(v, errors="coerce").fillna(0)`, the metric coercion of
fetch_cbs_data.py lines 162-165. -/
def coerceFillZero (v : PyVal) : ℚ :=
  (toNumericCoerce v).getD 0

/-! ## Frames: year-indexed per-category series -/

/-- One row of a per-category sheet: the year index and the two metric
columns.  `Option.none` is a pandas NaN cell. -/
structure Row where
  year : Int
  prod : Option ℚ
  cap : Option ℚ
deriving DecidableEq

/-- A year-indexed single-category table. -/
abbrev Frame := List Row

/-- The dict of per-category tables keyed by sheet name. -/
abbrev Frames := List (String × Frame)

/-- pandas `df.loc[year]` on a year-indexed frame: the first row with the
given year (the pipelines emit at most one row per year). -/
def dfLoc (df : Frame) (y : Int) : Option Row :=
  df.find? (fun r => r.year == y)

/-- pandas `sort_values("Year")` and `set_index("Year").sort_index()`: a
stable ascending sort on the year index. -/
def sortByYear (rows : List Row) : List Row :=
  List.insertionSort (fun a b => a.year ≤ b.year) rows

/-! ## fetch_cbs_data.py: classification and aggregation -/

/-- A raw record of the dataset as fetched by fetch_cbs_data.py: the
energy-source key or label, the period string, and the two loosely typed
metric cells. -/
structure RawRec where
  source : String
  period : String
  prod : PyVal
  cap : PyVal
deriving DecidableEq

/-- The static `source_mapping` of fetch_cbs_data.py (lines 101-110), from
labels (cbsodata fetch) and codes (manual fetch) to sheet names. -/
def source_mapping : List (String × String) :=
  [("Solar photovoltaic", "Solar"),
   ("Wind energy: onshore", "Onshore Wind"),
   ("Wind energy: offshore", "Offshore Wind"),
   ("E006590", "Solar"),
   ("E006637", "Onshore Wind"),
   ("E006638", "Offshore Wind")]

/-- Classification of one record key: exact lookup in `source_mapping` after
stripping surrounding whitespace (fetch_cbs_data.py lines 96-97 and 113-121). -/
def classifySource (s : String) : Option String :=
  List.lookup (pyStrip s) source_mapping

/-- The sheet names created by fetch_cbs_data.py (line 170). -/
def dataSheets : List String :=
  ["Solar", "Onshore Wind", "Offshore Wind"]

/-- The `fetch_and_process_data` pipeline of fetch_cbs_data.py after the
data arrives (lines 95-177): strip the source column, keep the records whose
key is in `source_mapping` (raising `ValueError` when none is), extract the
year with `clean_year` (whose `ValueError` propagates), drop records without
a year, coerce the two metric columns with fillna(0), and build one
year-sorted sheet per mapped source. -/
def fetch_and_process_data (recs : List RawRec) : Except Unit Frames :=
  let stripped := recs.map (fun r => { r with source := pyStrip r.source })
  let df := stripped.filter (fun r => (List.lookup r.source source_mapping).isSome)
  if df.isEmpty then Except.error ()
  else
    match df.mapM (fun r => (clean_year r.period).map (fun y => (r, y))) with
    | Except.error e => Except.error e
    | Except.ok withYear =>
      let rows := withYear.filterMap (fun ry =>
        ry.2.map (fun y =>
          (List.lookup ry.1.source source_mapping,
           ({ year := y,
              prod := some (coerceFillZero ry.1.prod),
              cap := some (coerceFillZero ry.1.cap) } : Row))))
      Except.ok (dataSheets.map (fun sheet =>
        (sheet,
         sortByYear (rows.filterMap (fun p =>
           if p.1 == some sheet then some p.2 else Option.none)))))

/-! ## Reference tables -/

/-- `REFERENCE_VALUES` of fetch_cbs_data.py (lines 22-38), re-grouped as a
list in iteration order: years 2022-2024, and for each year the dict of
sources in insertion order with (Produce, Capacity). -/
def REFERENCE_VALUES : List (Int × List (String × Int × Int)) :=
  [(2022, [("Onshore Wind", 13134, 6131),
           ("Offshore Wind", 7936, 2570),
           ("Solar", 16657, 17356)]),
   (2023, [("Onshore Wind", 17482, 6692),
           ("Offshore Wind", 11553, 4110),
           ("Solar", 19607, 21957)]),
   (2024, [("Onshore Wind", 17657, 6955),
           ("Offshore Wind", 15182, 4748),
           ("Solar", 21822, 24772)])]

/-- `REFERENCE` of fetch_cbs_renewable.py (lines 37-54): per sheet, the
years in ascending order with (production, capacity). -/
def REFERENCE : List (String × List (Int × Int × Int)) :=
  [("Onshore Wind", [(2022, 13134, 6131), (2023, 17482, 6692), (2024, 17657, 6955)]),
   ("Offshore Wind", [(2022, 7936, 2570), (2023, 11553, 4110), (2024, 15182, 4748)]),
   ("Solar", [(2022, 16657, 17356), (2023, 19607, 21957), (2024, 21822, 24772)])]

/-! ## Verifiers -/

/-- Python `abs` on a rational. -/
def ratAbs (q : ℚ) : ℚ :=
  if q < 0 then -q else q

/-- Python `int(x)` on a float: truncation toward zero. -/
def pyTrunc (q : ℚ) : Int :=
  q.num.tdiv (q.den : Int)

/-- One metric comparison of `verify_data` in fetch_cbs_data.py (lines
204-218): `abs(fetched - ref) < 1`; a NaN cell compares False. -/
def tolOkData (v : Option ℚ) (ref : Int) : Bool :=
  match v with
  | some q => ratAbs (q - (ref : ℚ)) < 1
  | Option.none => false

/-- The contribution of one (year, source) reference cell to `all_passed` in
`verify_data` (fetch_cbs_data.py lines 185-220): a missing sheet sets
`all_passed = False`; a missing year prints "YEAR MISSING" and `continue`s
without touching `all_passed`; otherwise both metrics must be within the
tolerance. -/
def cellOkData (frames : Frames) (year : Int) (source : String) (refProd refCap : Int) : Bool :=
  match List.lookup source frames with
  | Option.none => false
  | some df =>
    match dfLoc df year with
    | Option.none => true
    | some row => tolOkData row.cap refCap && tolOkData row.prod refProd

/-- `verify_data` of fetch_cbs_data.py (lines 179-222): fold over the
reference cells in loop order, accumulating `all_passed`. -/
def verify_data (frames : Frames) : Bool :=
  REFERENCE_VALUES.foldl
    (fun acc ye => ye.2.foldl (fun a se => a && cellOkData frames ye.1 se.1 se.2.1 se.2.2) acc)
    true

/-- The per-cell comparison of `verify` in fetch_cbs_renewable.py (lines
181-204): a missing sheet or missing year is a FAIL; otherwise
`int(fetched) == ref` must hold exactly for both metrics, a NaN fetched
value (`fetched = None`) never being equal. -/
def cellOkRen (frames : Frames) (sheet : String) (year refProd refCap : Int) : Bool :=
  match List.lookup sheet frames with
  | Option.none => false
  | some df =>
    match dfLoc df year with
    | Option.none => false
    | some row =>
      (row.prod.map pyTrunc == some refProd) && (row.cap.map pyTrunc == some refCap)

/-- `verify` of fetch_cbs_renewable.py (lines 165-209): fold `all_pass` over
every reference cell. -/
def verify (frames : Frames) : Bool :=
  REFERENCE.foldl
    (fun acc entry =>
      entry.2.foldl (fun a yrc => a && cellOkRen frames entry.1 yrc.1 yrc.2.1 yrc.2.2) acc)
    true

/-- The `production_match` test of `verify_against_reference` in
fetch_cbs_renewable_data.py (line 205): absolute difference below 0.01; a
NaN fetched value compares False. -/
def production_match (fetched : Option ℚ) (ref : ℚ) : Bool :=
  match fetched with
  | some q => ratAbs (q - ref) < 1 / 100
  | Option.none => false

/-- The `capacity_match` test of `verify_against_reference` in
fetch_cbs_renewable_data.py (line 216): absolute difference below 1; a NaN
fetched value compares False. -/
def capacity_match (fetched : Option ℚ) (ref : ℚ) : Bool :=
  match fetched with
  | some q => ratAbs (q - ref) < 1
  | Option.none => false

/-! ## fetch_cbs_renewable.py: typed records, key discovery, frame building -/

/-- A record of the TypedDataSet as selected by fetch_cbs_renewable.py: the
`EnergySourcesTechniques` key, the `Periods` string, and the two typed
metric cells (null becoming NaN). -/
structure TypedRec where
  key : String
  period : String
  prod : Option ℚ
  cap : Option ℚ
deriving DecidableEq

/-- The year extraction of `fetch_data` (fetch_cbs_renewable.py lines
116-118): apply `year_from_period` and drop the records without a year. -/
def processPeriods (recs : List TypedRec) : List (TypedRec × Int) :=
  recs.filterMap (fun r => (year_from_period r.period).map (fun y => (r, y)))

/-- Python dict assignment `m[k] = v`: replace the value of an existing key
in place, otherwise append the binding. -/
def upsert (m : List (String × String)) (k v : String) : List (String × String) :=
  if m.any (fun p => p.1 == k) then m.map (fun p => if p.1 == k then (k, v) else p)
  else m ++ [(k, v)]

/-- The candidate filter of `discover_source_keys` (fetch_cbs_renewable.py
lines 130-137): the records of year 2023 whose production and capacity both
equal the reference pair exactly. -/
def matches2023 (rows : List (TypedRec × Int)) (refProd refCap : Int) : List (TypedRec × Int) :=
  (rows.filter (fun r => r.2 == 2023)).filter
    (fun r => r.1.prod == some ((refProd : ℚ)) && r.1.cap == some ((refCap : ℚ)))

/-- The loop body of `discover_source_keys` (fetch_cbs_renewable.py lines
132-146) for one sheet of the reference table: look for the records of 2023
whose two measurements equal the 2023 reference pair of the sheet; a unique
match binds `key_to_sheet[key] = sheet`, zero or several matches only print
a warning.  The `year_data[2023]` lookup cannot fail on the static table;
the dead `Option.none` branch keeps the model total. -/
def discoverStep (rows : List (TypedRec × Int)) (acc : List (String × String))
    (entry : String × List (Int × Int × Int)) : List (String × String) :=
  match List.lookup 2023 entry.2 with
  | Option.none => acc
  | some rc =>
    match matches2023 rows rc.1 rc.2 with
    | [r] => upsert acc r.1.key entry.1
    | _ => acc

/-- `discover_source_keys` of fetch_cbs_renewable.py (lines 123-150): fold
the per-sheet discovery step over the static reference table. -/
def discover_source_keys (rows : List (TypedRec × Int)) : List (String × String) :=
  REFERENCE.foldl (discoverStep rows) []

/-- `build_source_df` of fetch_cbs_renewable.py (lines 153-162): keep the
records of one discovered key, project the year and the two metrics, index
by year and sort. -/
def build_source_df (rows : List (TypedRec × Int)) (source_key : String) : Frame :=
  sortByYear ((rows.filter (fun r => r.1.key == source_key)).map
    (fun r => { year := r.2, prod := r.1.prod, cap := r.1.cap }))

/-- Step 3 of `main` in fetch_cbs_renewable.py (lines 220-225): one frame
per discovered key, keyed by sheet name. -/
def buildFrames (rows : List (TypedRec × Int)) : Frames :=
  (discover_source_keys rows).map (fun p => (p.2, build_source_df rows p.1))

/-- Exit status of `main` in fetch_cbs_renewable.py (lines 212-237): a fetch
failure raises `RuntimeError`, uncaught, so the interpreter exits with
status 1; otherwise the script runs the pipeline and calls
`sys.exit(0 if verify(frames) else 1)`. -/
def main_exit_renewable (fetched : Except Unit (List TypedRec)) : Nat :=
  match fetched with
  | Except.error _ => 1
  | Except.ok recs => if verify (buildFrames (processPeriods recs)) then 0 else 1

/-- Exit status of `main` in fetch_cbs_data.py (lines 224-243): the whole
body is wrapped in try/except, the except clause only prints, and the
Boolean result of `verify_data` is discarded, so the interpreter always
exits with status 0. -/
def main_exit_data (pipeline : Except Unit Frames) : Nat :=
  match pipeline with
  | Except.error _ => 0
  | Except.ok frames =>
    let _ := verify_data frames
    0

/-- Exit status of `main` in fetch_cbs_renewable_data.py (lines 246-264):
per-source fetch failures are caught inside `fetch_all_renewable_data`, an
empty result dict prints an error and returns, `verify_against_reference`
returns nothing, and `main` never calls `sys.exit`; both paths end with
status 0. -/
def main_exit_renewable_data (results : Frames) : Nat :=
  if results.isEmpty then 0 else 0

/-! ## fetch_cbs_renewable_data.py: per-source fetch and extraction -/

/-- A TypedDataSet record as used by fetch_cbs_renewable_data.py.  The
production cell is kept loosely typed to expose the behaviour of the unit
division on strings; the capacity cell is numeric-or-null. -/
structure RDRec where
  period : String
  prod : PyVal
  cap : Option ℚ
deriving DecidableEq

/-- pandas `df["Periods"].str.extract(r"(\d{4})")` (fetch_cbs_renewable_data.py
line 101): the first run of four consecutive digits anywhere in the string,
NaN (`Option.none`) when there is none. -/
def extract4Digits : List Char → Option Int
  | a :: b :: c :: d :: rest =>
    if a.isDigit && b.isDigit && c.isDigit && d.isDigit then some (digitsVal [a, b, c, d])
    else extract4Digits (b :: c :: d :: rest)
  | _ => Option.none

/-- The unit scaling of fetch_cbs_renewable_data.py (line 110):
`result_df["Net Production (mln kWh)"] / 1000.0`.  A null cell is NaN and
stays NaN; dividing a string cell raises `TypeError`. -/
def extractProdRD (v : PyVal) : Except Unit (Option ℚ) :=
  match v with
  | PyVal.num q => Except.ok (some (q / 1000))
  | PyVal.none => Except.ok Option.none
  | PyVal.str _ => Except.error ()

/-- The frame construction of `fetch_energy_source_data` in
fetch_cbs_renewable_data.py (lines 100-120), applied to the records already
filtered server-side to one energy-source key: extract the year
(`astype(int)` raises when any period has no 4-digit run), scale the
production column, keep the years from 1990 onward, index by year and
sort. -/
def fetch_energy_source_data (recs : List RDRec) : Except Unit Frame :=
  match recs.mapM (fun r =>
      match extract4Digits r.period.toList with
      | some y => Except.ok (y, r)
      | Option.none => Except.error ()) with
  | Except.error _ => Except.error ()
  | Except.ok withYear =>
    match withYear.mapM (fun yr =>
        (extractProdRD yr.2.prod).map
          (fun p => ({ year := yr.1, prod := p, cap := yr.2.cap } : Row))) with
    | Except.error _ => Except.error ()
    | Except.ok rows => Except.ok (sortByYear (rows.filter (fun r => 1990 ≤ r.year)))

/-! ## Concrete fixtures used by counterexamples and witnesses -/

/-- A frame row with plain integer metric values. -/
def mkRow (y p c : Int) : Row :=
  { year := y, prod := some ((p : ℚ)), cap := some ((c : ℚ)) }

/-- The Onshore Wind sheet exactly matching the reference table. -/
def fullOnshore : Frame :=
  [mkRow 2022 13134 6131, mkRow 2023 17482 6692, mkRow 2024 17657 6955]

/-- The Offshore Wind sheet exactly matching the reference table. -/
def fullOffshore : Frame :=
  [mkRow 2022 7936 2570, mkRow 2023 11553 4110, mkRow 2024 15182 4748]

/-- The Solar sheet exactly matching the reference table. -/
def fullSolar : Frame :=
  [mkRow 2022 16657 17356, mkRow 2023 19607 21957, mkRow 2024 21822 24772]

/-- Frames in which every sheet matches the reference table exactly. -/
def fullFrames : Frames :=
  [("Onshore Wind", fullOnshore), ("Offshore Wind", fullOffshore), ("Solar", fullSolar)]

/-- An Onshore Wind sheet whose 2024 row is absent from the fetched data. -/
def onshoreNo2024 : Frame :=
  [mkRow 2022 13134 6131, mkRow 2023 17482 6692]

/-- Frames in which every cell matches the reference exactly except that the
Onshore Wind sheet has no 2024 row. -/
def framesMissing2024 : Frames :=
  [("Onshore Wind", onshoreNo2024), ("Offshore Wind", fullOffshore), ("Solar", fullSolar)]

/-- An Onshore Wind sheet whose 2022 capacity is 6130.5, within one unit of
the reference 6131 but not equal to it. -/
def onshoreHalfOff : Frame :=
  [{ year := 2022, prod := some ((13134 : ℚ)), cap := some ((12261 : ℚ) / 2) },
   mkRow 2023 17482 6692, mkRow 2024 17657 6955]

/-- Frames matching the reference exactly except for the 6130.5 capacity. -/
def framesHalfOff : Frames :=
  [("Onshore Wind", onshoreHalfOff), ("Offshore Wind", fullOffshore), ("Solar", fullSolar)]

/-- A single page body over record type `Nat` with no continuation link. -/
def onePageNat : Body Nat :=
  { value := [7], nextLink := Option.none }

/-- Three page bodies over record type `Nat`, chained by continuation links. -/
def pages3 : List (Body Nat) :=
  [{ value := [10], nextLink := some "page2" },
   { value := [20, 21], nextLink := some "page3" },
   { value := [30], nextLink := Option.none }]

/-- A typed record of the 2023 reference year, for discovery fixtures. -/
def tRec (k : String) (y p c : Int) : TypedRec × Int :=
  ({ key := k, period := "x", prod := some ((p : ℚ)), cap := some ((c : ℚ)) }, y)

/-- Two records sharing one key, one carrying the 2023 Onshore Wind
reference pair and the other the 2023 Offshore Wind reference pair. -/
def dupKeyRows : List (TypedRec × Int) :=
  [tRec "K" 2023 17482 6692, tRec "K" 2023 11553 4110]

/-- Three uniquely matching records with pairwise distinct keys. -/
def threeKeyRows : List (TypedRec × Int) :=
  [tRec "W1" 2023 17482 6692, tRec "W2" 2023 11553 4110, tRec "S1" 2023 19607 21957]

/-- The aggregated row produced from a record whose production is an empty
string and whose capacity is null. -/
def zeroRow : Row :=
  { year := 2022, prod := some 0, cap := some 0 }

/-- One Onshore Wind record whose production fails numeric coercion and
whose capacity is missing. -/
def badValueRecs : List RawRec :=
  [{ source := "E006637", period := "2022JJ00", prod := PyVal.str "", cap := PyVal.none }]

/-- The frames produced by the fetch_cbs_data pipeline on `badValueRecs`. -/
def badValueFrames : Frames :=
  [("Solar", []), ("Onshore Wind", [zeroRow]), ("Offshore Wind", [])]

/-- Two typed records of one energy source, in descending year order. -/
def unorderedRDRecs : List RDRec :=
  [{ period := "1999JJ00", prod := PyVal.none, cap := some 2 },
   { period := "1995JJ00", prod := PyVal.none, cap := some 4 }]

/-- The year-sorted frame built from `unorderedRDRecs`. -/
def sortedRDFrame : Frame :=
  [{ year := 1995, prod := Option.none, cap := some 4 },
   { year := 1999, prod := Option.none, cap := some 2 }]

/-! ## General helper lemmas -/

/-- Folding the and-accumulation of a verifier loop computes the conjunction
of all cell outcomes. -/
theorem foldl_and_eq {β : Type} (f : β → Bool) :
    ∀ (l : List β) (b : Bool), l.foldl (fun a x => a && f x) b = (b && l.all f) := by
  intro l
  induction l with
  | nil => intro b; simp
  | cons x t ih =>
    intro b
    simp only [List.foldl_cons, List.all_cons, ih, Bool.and_assoc]

/-- Dropping by a predicate that holds nowhere drops nothing. -/
theorem dropWhile_eq_self_of_false {p : Char → Bool} {l : List Char}
    (h : ∀ c ∈ l, p c = false) : l.dropWhile p = l := by
  cases l with
  | nil => rfl
  | cons c t =>
    have hc : p c = false := h c (List.mem_cons_self c t)
    simp [List.dropWhile_cons, hc]

/-- Stripping a string without whitespace characters leaves it unchanged. -/
theorem stripList_eq_self {l : List Char}
    (h : ∀ c ∈ l, c.isWhitespace = false) : stripList l = l := by
  unfold stripList
  rw [dropWhile_eq_self_of_false h]
  rw [dropWhile_eq_self_of_false (fun c hc => h c (List.mem_reverse.mp hc))]
  exact List.reverse_reverse l

/-- A digit character is not a whitespace character. -/
theorem digit_not_ws {c : Char} (h : c.isDigit = true) : c.isWhitespace = false := by
  rcases hw : c.isWhitespace with _ | _
  · rfl
  · exfalso
    have hd : ((c = ' ' ∨ c = '\t') ∨ c = '\r') ∨ c = '\n' := by
      simpa [Char.isWhitespace] using hw
    rcases hd with ((rfl | rfl) | rfl) | rfl <;> exact absurd h (by decide)

/-- A digit character is distinct from any character that is not a digit. -/
theorem digit_beq_false {c x : Char} (h : c.isDigit = true) (hx : x.isDigit = false) :
    (c == x) = false := by
  have hne : c ≠ x := by
    intro he
    rw [he, hx] at h
    exact Bool.false_ne_true h
  exact beq_eq_false_iff_ne.mpr hne

/-- C3, counterexample.  The string "2023" is a pure 4-digit numeral (its
stripped character list consists of four digits), yet the period parser
`year_from_period` of fetch_cbs_renewable.py returns no year for it, while
`clean_year` of fetch_cbs_data.py returns 2023: the claim that every period
parser returns the year of a pure 4-digit numeral is false. -/
theorem claim_C3_counterexample :
    stripList "2023".toList = ['2', '0', '2', '3'] ∧
    (['2', '0', '2', '3'].all Char.isDigit = true) ∧
    year_from_period "2023" = Option.none ∧
    clean_year "2023" = Except.ok (some 2023) := by
  decide

/-- C3, amended.  The two period parsers differ.  `clean_year`
(fetch_cbs_data.py) returns the year both for a pure 4-digit numeral and for
a "<year>JJ00" string, but raises a ValueError (rather than returning no
year) for other strings containing "JJ00" whose remainder is not an integer
literal, such as "xJJ00".  `year_from_period` (fetch_cbs_renewable.py)
returns the leading year exactly for strings whose stripped form starts
with four digits, then "JJ", then a digit, and returns no year for every
other string - including pure 4-digit numerals. -/
theorem claim_C3_amended :
    (∀ a b c d : Char, a.isDigit = true → b.isDigit = true → c.isDigit = true → d.isDigit = true →
      clean_year (String.mk [a, b, c, d]) = Except.ok (some (digitsVal [a, b, c, d])) ∧
      year_from_period (String.mk [a, b, c, d]) = Option.none ∧
      clean_year (String.mk [a, b, c, d, 'J', 'J', '0', '0']) =
        Except.ok (some (digitsVal [a, b, c, d]))) ∧
    (∀ a b c d e : Char, a.isDigit = true → b.isDigit = true → c.isDigit = true →
      d.isDigit = true → e.isDigit = true →
      year_from_period (String.mk [a, b, c, d, 'J', 'J', e]) = some (digitsVal [a, b, c, d])) ∧
    clean_year "xJJ00" = Except.error () ∧
    year_from_period "2023JJ" = Option.none ∧
    clean_year "20 23" = Except.ok Option.none := by
  refine ⟨?_, ?_, by decide, by decide, by decide⟩
  · intro a b c d ha hb hc hd
    have haJ := digit_beq_false ha (by decide : ('J').isDigit = false)
    have hbJ := digit_beq_false hb (by decide : ('J').isDigit = false)
    have hcJ := digit_beq_false hc (by decide : ('J').isDigit = false)
    have hdJ := digit_beq_false hd (by decide : ('J').isDigit = false)
    have haM := digit_beq_false ha (by decide : ('-').isDigit = false)
    have haP := digit_beq_false ha (by decide : ('+').isDigit = false)
    have hws4 : ∀ x ∈ [a, b, c, d], x.isWhitespace = false := by
      intro x hx
      simp only [List.mem_cons, List.not_mem_nil, or_false] at hx
      rcases hx with rfl | rfl | rfl | rfl
      · exact digit_not_ws ha
      · exact digit_not_ws hb
      · exact digit_not_ws hc
      · exact digit_not_ws hd
    have hws8 : ∀ x ∈ [a, b, c, d, 'J', 'J', '0', '0'], x.isWhitespace = false := by
      intro x hx
      simp only [List.mem_cons, List.not_mem_nil, or_false] at hx
      rcases hx with rfl | rfl | rfl | rfl | rfl | rfl | rfl | rfl
      · exact digit_not_ws ha
      · exact digit_not_ws hb
      · exact digit_not_ws hc
      · exact digit_not_ws hd
      · decide
      · decide
      · decide
      · decide
    refine ⟨?_, ?_, ?_⟩
    · simp [clean_year, stripList_eq_self hws4, ha, hb, hc, hd]
    · simp [year_from_period, stripList_eq_self hws4]
    · simp [clean_year, stripList_eq_self hws8, ha, hb, hc, hd, containsJJ00, removeJJ00,
        haJ, hbJ, hcJ, hdJ, pyIntList, stripList_eq_self hws4, haM, haP]
  · intro a b c d e ha hb hc hd he
    have hws7 : ∀ x ∈ [a, b, c, d, 'J', 'J', e], x.isWhitespace = false := by
      intro x hx
      simp only [List.mem_cons, List.not_mem_nil, or_false] at hx
      rcases hx with rfl | rfl | rfl | rfl | rfl | rfl | rfl
      · exact digit_not_ws ha
      · exact digit_not_ws hb
      · exact digit_not_ws hc
      · exact digit_not_ws hd
      · decide
      · decide
      · exact digit_not_ws he
    simp [year_from_period, stripList_eq_self hws7, ha, hb, hc, hd, he]

/-- C3, witness for the amended theorem at concrete digit characters. -/
theorem claim_C3_witness :
    clean_year (String.mk ['2', '0', '2', '3', 'J', 'J', '0', '0']) =
      Except.ok (some (digitsVal ['2', '0', '2', '3'])) ∧
    year_from_period (String.mk ['1', '9', '9', '5', 'J', 'J', '7']) =
      some (digitsVal ['1', '9', '9', '5']) :=
  ⟨(claim_C3_amended.1 '2' '0' '2' '3' (by decide) (by decide) (by decide) (by decide)).2.2,
   claim_C3_amended.2.1 '1' '9' '9' '5' '7' (by decide) (by decide) (by decide) (by decide)
     (by decide)⟩

/-- Folding a verifier loop nested over years and sources computes the
conjunction of all cell outcomes. -/
theorem nested_foldl_and {γ β : Type} (g : γ → List β) (f : γ → β → Bool) :
    ∀ (l : List γ) (b : Bool),
      l.foldl (fun acc y => (g y).foldl (fun a x => a && f y x) acc) b =
        (b && l.all (fun y => (g y).all (f y))) := by
  intro l
  induction l with
  | nil => intro b; simp
  | cons y t ih =>
    intro b
    simp only [List.foldl_cons, List.all_cons, ih, foldl_and_eq, Bool.and_assoc]

/-- The verify_data fold is the conjunction of all its cell outcomes. -/
theorem verify_data_eq_all (frames : Frames) :
    verify_data frames =
      REFERENCE_VALUES.all (fun ye => ye.2.all (fun se => cellOkData frames ye.1 se.1 se.2.1 se.2.2)) := by
  have h := nested_foldl_and (fun ye => ye.2)
    (fun ye se => cellOkData frames ye.1 se.1 se.2.1 se.2.2) REFERENCE_VALUES true
  simpa [verify_data] using h

/-- The verify fold of fetch_cbs_renewable.py is the conjunction of all its
cell outcomes. -/
theorem verify_eq_all (frames : Frames) :
    verify frames =
      REFERENCE.all (fun entry => entry.2.all (fun yrc => cellOkRen frames entry.1 yrc.1 yrc.2.1 yrc.2.2)) := by
  have h := nested_foldl_and (fun entry => entry.2)
    (fun entry yrc => cellOkRen frames entry.1 yrc.1 yrc.2.1 yrc.2.2) REFERENCE true
  simpa [verify] using h

/-- C1, amended.  In the verify of fetch_cbs_renewable.py, a missing sheet or
a missing year is reported as FAIL and makes the overall result a failure.
In verify_data of fetch_cbs_data.py, a missing sheet fails the overall
verdict, but a missing year is only printed as "YEAR MISSING" and
contributes a passing cell to the overall verdict, so verification can
succeed overall despite the missing cell. -/
theorem claim_C1_amended :
    (∀ (frames : Frames) (sheet : String), sheet ∈ dataSheets →
      List.lookup sheet frames = Option.none → verify_data frames = false) ∧
    (∀ (frames : Frames) (sheet : String) (ys : List (Int × Int × Int)) (y : Int) (pc : Int × Int),
      (sheet, ys) ∈ REFERENCE → (y, pc) ∈ ys →
      (List.lookup sheet frames = Option.none ∨
        ∃ df, List.lookup sheet frames = some df ∧ dfLoc df y = Option.none) →
      verify frames = false) ∧
    (∀ (frames : Frames) (sheet : String) (df : Frame) (y : Int) (p c : Int),
      List.lookup sheet frames = some df → dfLoc df y = Option.none →
      cellOkData frames y sheet p c = true) := by
  refine ⟨?_, ?_, ?_⟩
  · intro frames sheet hmem hnone
    rw [verify_data_eq_all]
    simp only [dataSheets, List.mem_cons, List.not_mem_nil, or_false] at hmem
    rcases hmem with rfl | rfl | rfl <;>
      · simp only [REFERENCE_VALUES, List.all_cons, List.all_nil]
        simp [cellOkData, hnone]
  · intro frames sheet ys y pc hmem hymem hmiss
    rw [verify_eq_all]
    have hcell : cellOkRen frames sheet y pc.1 pc.2 = false := by
      rcases hmiss with hnone | ⟨df, hdf, hloc⟩
      · simp [cellOkRen, hnone]
      · simp [cellOkRen, hdf, hloc]
    simp only [REFERENCE, List.mem_cons, List.not_mem_nil, or_false, Prod.mk.injEq] at hmem
    rcases hmem with ⟨rfl, rfl⟩ | ⟨rfl, rfl⟩ | ⟨rfl, rfl⟩ <;>
      · simp only [List.mem_cons, List.not_mem_nil, or_false, Prod.mk.injEq] at hymem
        rcases hymem with ⟨rfl, rfl⟩ | ⟨rfl, rfl⟩ | ⟨rfl, rfl⟩ <;>
          · simp only [REFERENCE, List.all_cons, List.all_nil]
            simp [hcell]
  · intro frames sheet df y p c hdf hloc
    simp [cellOkData, hdf, hloc]
/-- C1, counterexample.  Frames matching the reference exactly except that
the Onshore Wind sheet has no 2024 row: verify_data of fetch_cbs_data.py
still reports overall success, refuting the claim that a missing year makes
the overall verification result a failure in every verifier; the verify of
fetch_cbs_renewable.py does fail on the same input. -/
theorem claim_C1_counterexample :
    List.lookup "Onshore Wind" framesMissing2024 = some onshoreNo2024 ∧
    dfLoc onshoreNo2024 2024 = Option.none ∧
    verify_data framesMissing2024 = true ∧
    verify framesMissing2024 = false :=
  ⟨by decide, by decide, by with_unfolding_all decide, by with_unfolding_all decide⟩

/-- C1, witness: the amended theorem applied at concrete frames. -/
theorem claim_C1_witness :
    cellOkData framesMissing2024 2024 "Onshore Wind" 17657 6955 = true ∧
    verify_data [] = false :=
  ⟨claim_C1_amended.2.2 framesMissing2024 "Onshore Wind" onshoreNo2024 2024 17657 6955
      (by decide) (by decide),
   claim_C1_amended.1 [] "Solar" (by decide) (by decide)⟩

/-- C2, counterexample.  A fetched capacity of 6130.5 against the reference
6131 is within the absolute-difference tolerance of 1 (and verify_data
passes), yet the verify of fetch_cbs_renewable.py fails the run: its cell
decision requires exact equality of int(fetched) with the reference, not a
tolerance. -/
theorem claim_C2_counterexample :
    ratAbs ((12261 : ℚ) / 2 - 6131) < 1 ∧
    verify_data framesHalfOff = true ∧
    verify framesHalfOff = false :=
  ⟨by with_unfolding_all decide, by with_unfolding_all decide, by with_unfolding_all decide⟩

/-- C2, amended.  verify_data of fetch_cbs_data.py and
verify_against_reference of fetch_cbs_renewable_data.py decide each cell by
an absolute difference below a fixed threshold (below 1, and below 0.01 for
the scaled production metric), never requiring exact equality; the verify of
fetch_cbs_renewable.py instead requires the truncated fetched value to equal
the reference exactly. -/
theorem claim_C2_amended :
    (∀ (v : Option ℚ) (ref : Int),
      tolOkData v ref = true ↔ ∃ q, v = some q ∧ ratAbs (q - (ref : ℚ)) < 1) ∧
    (∀ (frames : Frames) (sheet : String) (df : Frame) (row : Row) (y refProd refCap : Int),
      List.lookup sheet frames = some df → dfLoc df y = some row →
      (cellOkRen frames sheet y refProd refCap = true ↔
        row.prod.map pyTrunc = some refProd ∧ row.cap.map pyTrunc = some refCap)) ∧
    (∀ (v : Option ℚ) (r : ℚ),
      production_match v r = true ↔ ∃ q, v = some q ∧ ratAbs (q - r) < 1 / 100) ∧
    (∀ (v : Option ℚ) (r : ℚ),
      capacity_match v r = true ↔ ∃ q, v = some q ∧ ratAbs (q - r) < 1) := by
  refine ⟨?_, ?_, ?_, ?_⟩
  · intro v ref; cases v <;> simp [tolOkData]
  · intro frames sheet df row y p c h1 h2
    simp [cellOkRen, h1, h2]
  · intro v r; cases v <;> simp [production_match]
  · intro v r; cases v <;> simp [capacity_match]

/-- C2, witness: the amended cell characterisation applied at a concrete
frame and row. -/
theorem claim_C2_witness :
    cellOkRen fullFrames "Onshore Wind" 2022 13134 6131 = true := by
  have h := claim_C2_amended.2.1 fullFrames "Onshore Wind" fullOnshore (mkRow 2022 13134 6131)
    2022 13134 6131 (by decide) (by decide)
  exact h.mpr ⟨by decide, by decide⟩

/-- The character list of a string built from a character list. -/
theorem toList_mk (l : List Char) : (String.mk l).toList = l := rfl

/-- The attempt loop of the paginated typed fetch succeeds after fewer than
five connection errors, having slept the exponential back-off delays. -/
theorem getJsonAttempts_ok {R : Type} (e : Nat) (he : e < 5) (b : Body R)
    (rest : List (HttpResult R)) :
    getJsonAttempts (List.replicate e HttpResult.err ++ HttpResult.ok b :: rest) 5 =
      (some (b, rest), (List.range e).map (fun i => 2 ^ (i + 1))) := by
  interval_cases e <;>
    simp [getJsonAttempts, List.replicate, List.range_succ]

/-- Five connection errors exhaust the attempt loop: it raises after
sleeping 2, 4, 8, 16 and 32 seconds. -/
theorem getJsonAttempts_exhausted {R : Type} (tr : List (HttpResult R)) :
    getJsonAttempts (List.replicate 5 HttpResult.err ++ tr) 5 = (Option.none, [2, 4, 8, 16, 32]) := by
  simp [getJsonAttempts, List.replicate]

/-- When the attempt loop raises, the pagination loop aborts fatally and no
partial record collection is returned. -/
theorem getJsonLoop_fatal {R : Type} (f : Nat) (url : Option String) (tr : List (HttpResult R))
    (acc : List R) (hu : truthy url = true) (hf : (getJsonAttempts tr 5).1 = Option.none) :
    getJsonLoop (f + 1) url tr acc = FetchOutcome.fatal := by
  rcases h : getJsonAttempts tr 5 with ⟨o, ds⟩
  rw [h] at hf
  simp only at hf
  subst hf
  simp [getJsonLoop, hu, h]

/-- A falsy url ends the pagination loop with the accumulated records. -/
theorem getJsonLoop_stop {R : Type} (fuel : Nat) (url : Option String) (tr : List (HttpResult R))
    (acc : List R) (hu : truthy url = false) :
    getJsonLoop fuel url tr acc = FetchOutcome.success acc := by
  cases fuel <;> simp [getJsonLoop, hu]

/-- fetch_with_retry succeeds after fewer than three failures, having slept
a constant 2 seconds between attempts. -/
theorem fetch_with_retry_ok {R : Type} (e : Nat) (he : e < 3) (b : Body R)
    (rest : List (HttpResult R)) :
    fetch_with_retry (List.replicate e HttpResult.err ++ HttpResult.ok b :: rest) 3 =
      (some (b, rest), List.replicate e 2) := by
  interval_cases e <;> simp [fetch_with_retry, List.replicate]

/-- Three failures exhaust fetch_with_retry: it re-raises after two constant
2-second sleeps. -/
theorem fetch_with_retry_exhausted {R : Type} (tr : List (HttpResult R)) :
    fetch_with_retry (List.replicate 3 HttpResult.err ++ tr) 3 = (Option.none, [2, 2]) := by
  simp [fetch_with_retry, List.replicate]

/-- fetch_data_manually performs no retry: a single connection error on any
page aborts the whole fetch. -/
theorem fetch_data_manually_err {R : Type} (f : Nat) (url : Option String)
    (tr : List (HttpResult R)) (acc : List R) (hu : truthy url = true) :
    fetch_data_manually (f + 1) url (HttpResult.err :: tr) acc = FetchOutcome.fatal := by
  simp [fetch_data_manually, hu]

/-- A falsy url ends the manual pagination loop. -/
theorem fetch_data_manually_stop {R : Type} (fuel : Nat) (url : Option String)
    (tr : List (HttpResult R)) (acc : List R) (hu : truthy url = false) :
    fetch_data_manually fuel url tr acc = FetchOutcome.success acc := by
  cases fuel <;> simp [fetch_data_manually, hu]

/-- The exponential back-off delays of the typed fetch strictly increase. -/
theorem delays_strict_mono (e : Nat) :
    List.Pairwise (fun x y => x < y) ((List.range e).map (fun i => 2 ^ (i + 1))) := by
  refine List.Pairwise.map _ ?_ (List.pairwise_lt_range e)
  intro a b hab
  exact Nat.pow_lt_pow_right (by omega) (by omega)

/-- Downgrading the scheme of a continuation url does not change its
truthiness. -/
theorem truthy_map_fixScheme (o : Option String) : truthy (o.map fixScheme) = truthy o := by
  cases o with
  | none => rfl
  | some u =>
    rcases h : (u.data.take 5 == ['h', 't', 't', 'p', 's']) with _ | _
    · have hne : ¬(List.take 5 u.data = ['h', 't', 't', 'p', 's']) := by simpa using h
      simp [truthy, fixScheme, String.toList, hne]
    · have ht : u.data.take 5 = ['h', 't', 't', 'p', 's'] := by simpa using h
      have hu : u.data = 'h' :: 't' :: 't' :: 'p' :: 's' :: u.data.drop 5 := by
        conv_lhs => rw [← List.take_append_drop 5 u.data, ht]
        rfl
      simp only [truthy, Option.map_some', fixScheme, String.toList, ht, if_pos]
      conv_lhs => rw [hu]
      conv_rhs => rw [hu]
      simp [replaceHttps]

/-- Pagination correctness of the typed fetch: over a network trace serving
a chained page sequence with fewer than five connection errors per page, the
loop returns the in-order concatenation of the page record arrays. -/
theorem getJsonLoop_chain {R : Type} :
    ∀ (pages : List (Body R)) (errs : List Nat) (f : Nat) (url : Option String) (acc : List R),
      errs.length = pages.length → (∀ e ∈ errs, e < 5) → chainOk pages = true →
      truthy url = true → pages ≠ [] →
      getJsonLoop (pages.length + f) url (traceOf pages errs) acc =
        FetchOutcome.success (acc ++ (pages.map Body.value).flatten) := by
  intro pages
  induction pages with
  | nil => intro errs f url acc _ _ _ _ hne; exact absurd rfl hne
  | cons p rest ih =>
    intro errs f url acc hlen herr hchain hu _
    cases errs with
    | nil => simp at hlen
    | cons e errs' =>
      have he : e < 5 := herr e (List.mem_cons_self e errs')
      have hlen' : errs'.length = rest.length := by simpa using hlen
      have htr : traceOf (p :: rest) (e :: errs') =
          List.replicate e HttpResult.err ++ HttpResult.ok p :: traceOf rest errs' := by
        simp [traceOf, List.append_assoc]
      have hfuel : (p :: rest).length + f = (rest.length + f) + 1 := by
        simp [List.length_cons]
        omega
      rw [htr, hfuel]
      have hstep : getJsonLoop ((rest.length + f) + 1) url
          (List.replicate e HttpResult.err ++ HttpResult.ok p :: traceOf rest errs') acc =
          getJsonLoop (rest.length + f) p.nextLink (traceOf rest errs') (acc ++ p.value) := by
        simp [getJsonLoop, hu, getJsonAttempts_ok e he p (traceOf rest errs')]
      rw [hstep]
      cases rest with
      | nil =>
        have hnl : truthy p.nextLink = false := by simpa [chainOk] using hchain
        have herrs' : errs' = [] := List.length_eq_zero.mp (by simpa using hlen')
        subst herrs'
        rw [getJsonLoop_stop _ _ _ _ hnl]
        simp
      | cons q rest' =>
        have hchain' : truthy p.nextLink = true ∧ chainOk (q :: rest') = true := by
          simpa [chainOk] using hchain
        have := ih errs' f p.nextLink (acc ++ p.value) hlen'
          (fun x hx => herr x (List.mem_cons_of_mem e hx)) hchain'.2 hchain'.1
          (List.cons_ne_nil q rest')
        rw [this]
        simp [List.append_assoc]

/-- Pagination correctness of the manual fetch on an error-free trace. -/
theorem fetch_data_manually_chain {R : Type} :
    ∀ (pages : List (Body R)) (f : Nat) (url : Option String) (acc : List R),
      chainOk pages = true → truthy url = true → pages ≠ [] →
      fetch_data_manually (pages.length + f) url (pages.map HttpResult.ok) acc =
        FetchOutcome.success (acc ++ (pages.map Body.value).flatten) := by
  intro pages
  induction pages with
  | nil => intro f url acc _ _ hne; exact absurd rfl hne
  | cons p rest ih =>
    intro f url acc hchain hu _
    have hfuel : (p :: rest).length + f = (rest.length + f) + 1 := by
      simp [List.length_cons]
      omega
    rw [hfuel]
    have hstep : fetch_data_manually ((rest.length + f) + 1) url
        ((p :: rest).map HttpResult.ok) acc =
        fetch_data_manually (rest.length + f) (p.nextLink.map fixScheme)
          (rest.map HttpResult.ok) (acc ++ p.value) := by
      simp [fetch_data_manually, hu]
    rw [hstep]
    cases rest with
    | nil =>
      have hnl : truthy p.nextLink = false := by simpa [chainOk] using hchain
      have hnl' : truthy (p.nextLink.map fixScheme) = false := by
        rw [truthy_map_fixScheme]; exact hnl
      rw [fetch_data_manually_stop _ _ _ _ hnl']
      simp
    | cons q rest' =>
      have hchain' : truthy p.nextLink = true ∧ chainOk (q :: rest') = true := by
        simpa [chainOk] using hchain
      have hnl' : truthy (p.nextLink.map fixScheme) = true := by
        rw [truthy_map_fixScheme]; exact hchain'.1
      have := ih f (p.nextLink.map fixScheme) (acc ++ p.value) hchain'.2 hnl'
        (List.cons_ne_nil q rest')
      rw [this]
      simp [List.append_assoc]

/-- C4, amended.  The retry behaviour differs per fetcher.  The attempt
loop of _get_json (fetch_cbs_renewable.py) retries up to 5 attempts with
strictly increasing delays 2, 4, 8, 16, 32 seconds and raises fatally when
exhausted.  fetch_with_retry (fetch_cbs_renewable_data.py) retries up to 3
attempts with a constant 2-second delay and re-raises when exhausted.
fetch_data_manually (fetch_cbs_data.py) does not retry at all: the first
connection error aborts the fetch fatally, and in every fatal case no
partial record collection is returned. -/
theorem claim_C4_amended :
    (∀ (e : Nat) (b : Body Nat) (rest : List (HttpResult Nat)), e < 5 →
      getJsonAttempts (List.replicate e HttpResult.err ++ HttpResult.ok b :: rest) 5 =
        (some (b, rest), (List.range e).map (fun i => 2 ^ (i + 1))) ∧
      List.Pairwise (fun x y => x < y) ((List.range e).map (fun i => 2 ^ (i + 1)))) ∧
    (∀ tr : List (HttpResult Nat),
      getJsonAttempts (List.replicate 5 HttpResult.err ++ tr) 5 = (Option.none, [2, 4, 8, 16, 32])) ∧
    (∀ (f : Nat) (url : Option String) (tr : List (HttpResult Nat)) (acc : List Nat),
      truthy url = true → (getJsonAttempts tr 5).1 = Option.none →
      getJsonLoop (f + 1) url tr acc = FetchOutcome.fatal) ∧
    (∀ (e : Nat) (b : Body Nat) (rest : List (HttpResult Nat)), e < 3 →
      fetch_with_retry (List.replicate e HttpResult.err ++ HttpResult.ok b :: rest) 3 =
        (some (b, rest), List.replicate e 2)) ∧
    (∀ tr : List (HttpResult Nat),
      fetch_with_retry (List.replicate 3 HttpResult.err ++ tr) 3 = (Option.none, [2, 2])) ∧
    (∀ (f : Nat) (url : Option String) (tr : List (HttpResult Nat)) (acc : List Nat),
      truthy url = true →
      fetch_data_manually (f + 1) url (HttpResult.err :: tr) acc = FetchOutcome.fatal) :=
  ⟨fun e b rest he => ⟨getJsonAttempts_ok e he b rest, delays_strict_mono e⟩,
   fun tr => getJsonAttempts_exhausted tr,
   fun f url tr acc hu hf => getJsonLoop_fatal f url tr acc hu hf,
   fun e b rest he => fetch_with_retry_ok e he b rest,
   fun tr => fetch_with_retry_exhausted tr,
   fun f url tr acc hu => fetch_data_manually_err f url tr acc hu⟩

/-- C4, counterexample.  On a trace whose first response is a connection
error and whose second is a good page, fetch_data_manually of
fetch_cbs_data.py fails fatally without retrying - the same trace on which
the retrying fetcher succeeds - refuting the claim that every fetcher
retries 3 to 5 times; and the delays of fetch_with_retry are the constant
list [2, 2], not increasing. -/
theorem claim_C4_counterexample :
    fetch_data_manually 2 (some "http://u") [HttpResult.err, HttpResult.ok onePageNat] [] =
      FetchOutcome.fatal ∧
    getJsonLoop 2 (some "http://u") [HttpResult.err, HttpResult.ok onePageNat] [] =
      FetchOutcome.success [7] ∧
    (fetch_with_retry ([HttpResult.err, HttpResult.err, HttpResult.err] : List (HttpResult Nat)) 3).2 =
      [2, 2] := by
  refine ⟨by decide, by decide, by decide⟩

/-- C4, witness: the amended theorem applied at concrete traces. -/
theorem claim_C4_witness :
    getJsonAttempts (List.replicate 2 HttpResult.err ++ HttpResult.ok onePageNat :: []) 5 =
      (some (onePageNat, []), (List.range 2).map (fun i => 2 ^ (i + 1))) ∧
    fetch_with_retry (List.replicate 1 HttpResult.err ++ HttpResult.ok onePageNat :: []) 3 =
      (some (onePageNat, []), List.replicate 1 2) ∧
    fetch_data_manually (0 + 1) (some "http://u") (HttpResult.err :: []) ([] : List Nat) =
      FetchOutcome.fatal :=
  ⟨(claim_C4_amended.1 2 onePageNat [] (by decide)).1,
   claim_C4_amended.2.2.2.1 1 onePageNat [] (by decide),
   claim_C4_amended.2.2.2.2.2 0 (some "http://u") [] [] (by decide)⟩

/-- C6.  Over every chained page sequence served by the endpoint (with
fewer than five connection errors before each page for the retrying typed
fetch, and error-free for the manual fetch), the fetcher returns exactly the
in-order concatenation of the page "value" arrays, following the
continuation link while present and truthy and stopping exactly when it is
absent. -/
theorem claim_C6 :
    (∀ (pages : List (Body Nat)) (errs : List Nat) (f : Nat) (url : Option String),
      errs.length = pages.length → (∀ e ∈ errs, e < 5) → chainOk pages = true →
      truthy url = true → pages ≠ [] →
      getJsonLoop (pages.length + f) url (traceOf pages errs) [] =
        FetchOutcome.success ((pages.map Body.value).flatten)) ∧
    (∀ (pages : List (Body Nat)) (f : Nat) (url : Option String),
      chainOk pages = true → truthy url = true → pages ≠ [] →
      fetch_data_manually (pages.length + f) url (pages.map HttpResult.ok) [] =
        FetchOutcome.success ((pages.map Body.value).flatten)) :=
  ⟨fun pages errs f url h1 h2 h3 h4 h5 => by
      simpa using getJsonLoop_chain pages errs f url [] h1 h2 h3 h4 h5,
   fun pages f url h1 h2 h3 => by
      simpa using fetch_data_manually_chain pages f url [] h1 h2 h3⟩

/-- C6, witness: a three-page fetch in which the second page fails twice
and succeeds on the third attempt yields the full record set, for the typed
fetch; and the manual fetch concatenates an error-free three-page trace. -/
theorem claim_C6_witness :
    getJsonLoop (pages3.length + 0) (some "start") (traceOf pages3 [0, 2, 0]) [] =
      FetchOutcome.success ((pages3.map Body.value).flatten) ∧
    fetch_data_manually (pages3.length + 0) (some "start") (pages3.map HttpResult.ok) [] =
      FetchOutcome.success ((pages3.map Body.value).flatten) :=
  ⟨claim_C6.1 pages3 [0, 2, 0] 0 (some "start") (by decide) (by decide) (by decide) (by decide)
      (by decide),
   claim_C6.2 pages3 0 (some "start") (by decide) (by decide) (by decide)⟩

/-- C5, counterexample.  With empty frames every comparison fails
(verify_data is false), yet the main of fetch_cbs_data.py still exits with
status 0 - its try/except swallows everything and the verification result
is discarded - refuting the claim that any comparison failure yields a
non-zero exit status.  The main of fetch_cbs_renewable_data.py likewise
always exits 0. -/
theorem claim_C5_counterexample :
    verify_data [] = false ∧ main_exit_data (Except.ok []) = 0 ∧
    main_exit_renewable_data [] = 0 :=
  ⟨by decide, by decide, by decide⟩

/-- C5, amended.  Only fetch_cbs_renewable.py implements the exit-status
contract: its main exits 0 exactly when the fetch succeeded and verify
passed on the built frames, and exits 1 on a fatal fetch error.  The mains
of fetch_cbs_data.py and fetch_cbs_renewable_data.py exit 0 regardless of
the verification outcome, and also when the fetch fails. -/
theorem claim_C5_amended :
    (∀ p : Except Unit Frames, main_exit_data p = 0) ∧
    (∀ r : Frames, main_exit_renewable_data r = 0) ∧
    (∀ u : Unit, main_exit_renewable (Except.error u) = 1) ∧
    (∀ fetched : Except Unit (List TypedRec),
      main_exit_renewable fetched = 0 ↔
        ∃ recs, fetched = Except.ok recs ∧
          verify (buildFrames (processPeriods recs)) = true) := by
  refine ⟨?_, ?_, ?_, ?_⟩
  · intro p; cases p <;> rfl
  · intro r; simp [main_exit_renewable_data]
  · intro u; rfl
  · intro fetched
    cases fetched with
    | error u => simp [main_exit_renewable]
    | ok recs =>
      rcases hv : verify (buildFrames (processPeriods recs)) with _ | _
      · simp [main_exit_renewable, hv]
      · simp [main_exit_renewable, hv]

/-- A key whose stripped form differs from every entry of the static table
is classified to no category: there is no partial or fuzzy matching. -/
theorem classify_no_match {s : String}
    (h : ∀ p ∈ source_mapping, p.1 ≠ pyStrip s) : classifySource s = Option.none := by
  have h1 := h ("Solar photovoltaic", "Solar") (by simp [source_mapping])
  have h2 := h ("Wind energy: onshore", "Onshore Wind") (by simp [source_mapping])
  have h3 := h ("Wind energy: offshore", "Offshore Wind") (by simp [source_mapping])
  have h4 := h ("E006590", "Solar") (by simp [source_mapping])
  have h5 := h ("E006637", "Onshore Wind") (by simp [source_mapping])
  have h6 := h ("E006638", "Offshore Wind") (by simp [source_mapping])
  simp only [classifySource, source_mapping, List.lookup]
  simp [beq_eq_false_iff_ne.mpr (Ne.symm h1), beq_eq_false_iff_ne.mpr (Ne.symm h2),
    beq_eq_false_iff_ne.mpr (Ne.symm h3), beq_eq_false_iff_ne.mpr (Ne.symm h4),
    beq_eq_false_iff_ne.mpr (Ne.symm h5), beq_eq_false_iff_ne.mpr (Ne.symm h6)]

/-- Records whose stripped key is not in the static table are excluded from
every downstream series: removing them from the input does not change the
output of the pipeline. -/
theorem fapd_filter (recs : List RawRec) :
    fetch_and_process_data recs =
      fetch_and_process_data (recs.filter (fun r => (classifySource r.source).isSome)) := by
  have hdf :
      ((recs.filter (fun r => (classifySource r.source).isSome)).map
          (fun r => { r with source := pyStrip r.source })).filter
        (fun r => (List.lookup r.source source_mapping).isSome) =
      ((recs.map (fun r => { r with source := pyStrip r.source })).filter
        (fun r => (List.lookup r.source source_mapping).isSome)) := by
    rw [List.filter_map, List.filter_map, List.filter_filter]
    simp [Function.comp_def, classifySource, Bool.and_self]
  simp only [fetch_and_process_data]
  rw [hdf]

/-- When no record at all matches a known key, the pipeline raises
ValueError instead of producing empty sheets. -/
theorem fapd_no_match_error (recs : List RawRec)
    (h : recs.filter (fun r => (classifySource r.source).isSome) = []) :
    fetch_and_process_data recs = Except.error () := by
  rw [fapd_filter recs, h]
  rfl

/-- C7, amended.  Classification is an exact lookup of the
whitespace-stripped key in the static table, never partial or fuzzy, and
every unmatched record is excluded from all downstream series without
affecting the output - provided at least one record matches some known key.
When no record matches any key, fetch_and_process_data raises a ValueError
rather than quietly dropping the records. -/
theorem claim_C7_amended :
    (∀ s : String, (∀ p ∈ source_mapping, p.1 ≠ pyStrip s) →
      classifySource s = Option.none) ∧
    (∀ recs : List RawRec,
      fetch_and_process_data recs =
        fetch_and_process_data (recs.filter (fun r => (classifySource r.source).isSome))) ∧
    (∀ recs : List RawRec,
      recs.filter (fun r => (classifySource r.source).isSome) = [] →
      fetch_and_process_data recs = Except.error ()) :=
  ⟨fun _ h => classify_no_match h, fapd_filter, fapd_no_match_error⟩

/-- C7, counterexample.  An input consisting of one record with the unknown
key "Coal" makes fetch_and_process_data raise a ValueError: the unmatched
record is not dropped without being treated as an error, refuting the claim
for inputs in which no record matches. -/
theorem claim_C7_counterexample :
    classifySource "Coal" = Option.none ∧
    fetch_and_process_data
        [{ source := "Coal", period := "2022JJ00", prod := PyVal.num 1, cap := PyVal.num 2 }] =
      Except.error () :=
  ⟨by decide, by decide⟩

/-- C7, witness: the amended theorem applied at concrete records. -/
theorem claim_C7_witness :
    classifySource "Biomass" = Option.none ∧
    fetch_and_process_data
        [{ source := "Biomass", period := "2023JJ00", prod := PyVal.num 3, cap := PyVal.num 4 }] =
      Except.error () :=
  ⟨claim_C7_amended.1 "Biomass" (by decide),
   claim_C7_amended.2.2
     [{ source := "Biomass", period := "2023JJ00", prod := PyVal.num 3, cap := PyVal.num 4 }]
     (by decide)⟩

/-- A dict assignment only contributes its own value to the range of the
mapping. -/
theorem upsert_snd_mem {m : List (String × String)} {k v s : String}
    (h : s ∈ (upsert m k v).map Prod.snd) : s ∈ m.map Prod.snd ∨ s = v := by
  unfold upsert at h
  split at h
  · simp only [List.map_map, List.mem_map, Function.comp_apply] at h
    rcases h with ⟨p, hp, hsnd⟩
    rcases hbk : (p.1 == k) with _ | _
    · rw [hbk] at hsnd
      simp only [if_neg Bool.false_ne_true] at hsnd
      exact Or.inl (List.mem_map.mpr ⟨p, hp, hsnd⟩)
    · rw [hbk] at hsnd
      simp only [if_pos rfl] at hsnd
      exact Or.inr hsnd.symm
  · simp only [List.map_append, List.mem_append, List.map_cons, List.map_nil,
      List.mem_singleton] at h
    rcases h with h | h
    · exact Or.inl h
    · exact Or.inr h

/-- One discovery step binds at most its own sheet name: any sheet in the
resulting mapping was already bound or is the sheet of this step. -/
theorem discoverStep_snd_mem {rows : List (TypedRec × Int)} {acc : List (String × String)}
    {entry : String × List (Int × Int × Int)} {s : String}
    (h : s ∈ (discoverStep rows acc entry).map Prod.snd) :
    s ∈ acc.map Prod.snd ∨ s = entry.1 := by
  unfold discoverStep at h
  split at h
  · exact Or.inl h
  · split at h
    · exact upsert_snd_mem h
    · exact Or.inl h

/-- A discovery step with a unique 2023 match performs the dict assignment
of the matched key to the sheet of the step. -/
theorem discoverStep_single {rows : List (TypedRec × Int)} {acc : List (String × String)}
    {entry : String × List (Int × Int × Int)} (rc : Int × Int) {r : TypedRec × Int}
    (hl : List.lookup 2023 entry.2 = some rc) (hm : matches2023 rows rc.1 rc.2 = [r]) :
    discoverStep rows acc entry = upsert acc r.1.key entry.1 := by
  unfold discoverStep
  rw [hl]
  show (match matches2023 rows rc.1 rc.2 with
        | [r] => upsert acc r.1.key entry.1
        | _ => acc) = upsert acc r.1.key entry.1
  rw [hm]

/-- C8, amended.  When each category has exactly one record of year 2023
whose two measurements equal its reference pair, and the three matched keys
are pairwise distinct, every key is bound to its category.  When zero or
more than one record matches a category, that category is left unbound (a
warning is printed, not a fatal error).  However, because the mapping is a
dict keyed by the record key, a later category uniquely matching a record
with the same key overwrites the earlier binding, so a uniquely matched
category can still end up unbound. -/
theorem claim_C8_amended :
    (∀ (rows : List (TypedRec × Int)) (r1 r2 r3 : TypedRec × Int),
      matches2023 rows 17482 6692 = [r1] → matches2023 rows 11553 4110 = [r2] →
      matches2023 rows 19607 21957 = [r3] →
      r1.1.key ≠ r2.1.key → r1.1.key ≠ r3.1.key → r2.1.key ≠ r3.1.key →
      discover_source_keys rows =
        [(r1.1.key, "Onshore Wind"), (r2.1.key, "Offshore Wind"), (r3.1.key, "Solar")]) ∧
    (∀ rows : List (TypedRec × Int), (matches2023 rows 17482 6692).length ≠ 1 →
      "Onshore Wind" ∉ (discover_source_keys rows).map Prod.snd) := by
  constructor
  · intro rows r1 r2 r3 h1 h2 h3 h12 h13 h23
    have b12 : (r1.1.key == r2.1.key) = false := beq_eq_false_iff_ne.mpr h12
    have b13 : (r1.1.key == r3.1.key) = false := beq_eq_false_iff_ne.mpr h13
    have b23 : (r2.1.key == r3.1.key) = false := beq_eq_false_iff_ne.mpr h23
    simp only [discover_source_keys, REFERENCE, List.foldl_cons, List.foldl_nil]
    rw [discoverStep_single (19607, 21957) (by decide) h3,
      discoverStep_single (11553, 4110) (by decide) h2,
      discoverStep_single (17482, 6692) (by decide) h1]
    simp [upsert, b12, b13, b23]
  · intro rows h hmem
    simp only [discover_source_keys, REFERENCE, List.foldl_cons, List.foldl_nil] at hmem
    have hstep1 : discoverStep rows []
        ("Onshore Wind", [(2022, 13134, 6131), (2023, 17482, 6692), (2024, 17657, 6955)]) = [] := by
      unfold discoverStep
      rw [(by decide : List.lookup (2023 : Int)
          [((2022 : Int), ((13134 : Int), (6131 : Int))), (2023, (17482, 6692)),
           (2024, (17657, 6955))] = some (17482, 6692))]
      show (match matches2023 rows 17482 6692 with
            | [r] => upsert [] r.1.key "Onshore Wind"
            | _ => []) = []
      rcases hm : matches2023 rows 17482 6692 with _ | ⟨r, _ | ⟨r', t⟩⟩
      · rfl
      · exact absurd (by rw [hm]; rfl) h
      · rfl
    rw [hstep1] at hmem
    rcases discoverStep_snd_mem hmem with hin | heq
    · rcases discoverStep_snd_mem hin with hin' | heq'
      · simp at hin'
      · exact absurd heq' (by decide)
    · exact absurd heq (by decide)

/-- C8, counterexample.  Two records of year 2023 share the key "K", one
equal to the Onshore Wind reference pair and one to the Offshore Wind pair.
Each category has exactly one matching record, yet the discovered mapping is
only [("K", "Offshore Wind")]: the Onshore Wind binding was overwritten, so
the unique match did not bind that key to its category for the rest of the
run, refuting the claim. -/
theorem claim_C8_counterexample :
    matches2023 dupKeyRows 17482 6692 = [tRec "K" 2023 17482 6692] ∧
    matches2023 dupKeyRows 11553 4110 = [tRec "K" 2023 11553 4110] ∧
    discover_source_keys dupKeyRows = [("K", "Offshore Wind")] :=
  ⟨by decide, by decide, by decide⟩

/-- C8, witness: the amended theorem applied to three uniquely matching
records with distinct keys. -/
theorem claim_C8_witness :
    discover_source_keys threeKeyRows =
      [("W1", "Onshore Wind"), ("W2", "Offshore Wind"), ("S1", "Solar")] := by
  have h := claim_C8_amended.1 threeKeyRows (tRec "W1" 2023 17482 6692)
    (tRec "W2" 2023 11553 4110) (tRec "S1" 2023 19607 21957)
    (by decide) (by decide) (by decide) (by decide) (by decide) (by decide)
  simpa [tRec] using h

/-- The stable ascending year sort leaves the rows pairwise ordered by
year. -/
theorem sortByYear_sorted (rows : List Row) :
    List.Pairwise (fun a b : Row => a.year ≤ b.year) (sortByYear rows) := by
  haveI : IsTotal Row (fun a b : Row => a.year ≤ b.year) :=
    ⟨fun a b => Int.le_total a.year b.year⟩
  haveI : IsTrans Row (fun a b : Row => a.year ≤ b.year) :=
    ⟨fun a b c hab hbc => le_trans hab hbc⟩
  exact List.sorted_insertionSort _ rows

/-- Inversion of a successful fetch_cbs_data pipeline run: the frames are
one year-sorted sheet per mapped source, built from rows whose two metric
cells are always present (filled with 0 where coercion failed). -/
theorem fapd_ok_inv {recs : List RawRec} {frames : Frames}
    (h : fetch_and_process_data recs = Except.ok frames) :
    ∃ rows : List (Option String × Row),
      (∀ pr ∈ rows, pr.2.prod.isSome = true ∧ pr.2.cap.isSome = true) ∧
      frames = dataSheets.map (fun sheet =>
        (sheet, sortByYear (rows.filterMap (fun p =>
          if p.1 == some sheet then some p.2 else Option.none)))) := by
  simp only [fetch_and_process_data] at h
  split at h
  · exact absurd h (by simp)
  · split at h
    · exact absurd h (by simp)
    · rename_i withYear heq
      simp only [Except.ok.injEq] at h
      refine ⟨withYear.filterMap (fun ry =>
        ry.2.map (fun y =>
          (List.lookup ry.1.source source_mapping,
           ({ year := y,
              prod := some (coerceFillZero ry.1.prod),
              cap := some (coerceFillZero ry.1.cap) } : Row)))), ?_, h.symm⟩
      intro pr hpr
      simp only [List.mem_filterMap, Option.map_eq_some'] at hpr
      rcases hpr with ⟨ry, hry, y, hy, hpr⟩
      subst hpr
      exact ⟨rfl, rfl⟩
/-- C9, amended.  In fetch_cbs_data.py every metric cell is
pd.to_numeric(errors="coerce").fillna(0) of the raw value: a missing or
non-coercible value becomes 0 and the aggregated series never contains a
missing cell.  In fetch_cbs_renewable_data.py there is no such defaulting:
a missing production value stays NaN in the aggregated series, and a string
production value raises a TypeError in the unit division instead of
yielding 0. -/
theorem claim_C9_amended :
    (coerceFillZero PyVal.none = 0) ∧
    (∀ s : String, parseDecimal s = Option.none → coerceFillZero (PyVal.str s) = 0) ∧
    (∀ (recs : List RawRec) (frames : Frames), fetch_and_process_data recs = Except.ok frames →
      ∀ (sheet : String) (df : Frame), (sheet, df) ∈ frames →
        ∀ r ∈ df, r.prod.isSome = true ∧ r.cap.isSome = true) ∧
    (extractProdRD PyVal.none = Except.ok Option.none) ∧
    (∀ s : String, extractProdRD (PyVal.str s) = Except.error ()) := by
  refine ⟨rfl, ?_, ?_, rfl, fun s => rfl⟩
  · intro s hs
    simp [coerceFillZero, toNumericCoerce, hs]
  · intro recs frames h sheet df hmem r hr
    rcases fapd_ok_inv h with ⟨rows, hrows, rfl⟩
    simp only [List.mem_map] at hmem
    rcases hmem with ⟨sh, hsh, heq⟩
    have hdf : df = sortByYear (rows.filterMap (fun p =>
        if p.1 == some sh then some p.2 else Option.none)) := by
      have := congrArg Prod.snd heq
      simpa using this.symm
    subst hdf
    have hr' : r ∈ rows.filterMap (fun p =>
        if p.1 == some sh then some p.2 else Option.none) := by
      have hperm := List.perm_insertionSort (fun a b : Row => a.year ≤ b.year)
        (rows.filterMap (fun p => if p.1 == some sh then some p.2 else Option.none))
      exact hperm.mem_iff.mp hr
    simp only [List.mem_filterMap] at hr'
    rcases hr' with ⟨p, hp, hif⟩
    rcases hb : (p.1 == some sh) with _ | _
    · rw [hb] at hif
      simp at hif
    · rw [hb] at hif
      have hpr : p.2 = r := by simpa using hif
      rw [← hpr]
      exact hrows p hp

/-- C9, counterexample.  In the fetch_cbs_renewable_data.py pipeline a
record with a null production yields NaN in the aggregated series - not 0 -
and a record whose production is the empty string raises rather than
yielding 0, refuting the claim for that variant (the fetch_cbs_data variant
does default to 0). -/
theorem claim_C9_counterexample :
    fetch_energy_source_data [{ period := "2023JJ00", prod := PyVal.none, cap := some 5 }] =
      Except.ok [{ year := 2023, prod := Option.none, cap := some 5 }] ∧
    fetch_energy_source_data [{ period := "2023JJ00", prod := PyVal.str "", cap := some 5 }] =
      Except.error () ∧
    coerceFillZero PyVal.none = 0 :=
  ⟨by decide, by decide, by decide⟩

/-- C9, witness: the amended theorem applied at concrete values. -/
theorem claim_C9_witness :
    coerceFillZero (PyVal.str "x!") = 0 ∧
    (zeroRow.prod.isSome = true ∧ zeroRow.cap.isSome = true) :=
  ⟨claim_C9_amended.2.1 "x!" (by decide),
   claim_C9_amended.2.2.1 badValueRecs badValueFrames (by decide) "Onshore Wind" [zeroRow]
     (by decide) zeroRow (by decide)⟩

/-- C10.  Every per-category series produced by any of the three
build/aggregate steps is indexed by year in non-decreasing order: the
sheets of fetch_and_process_data (fetch_cbs_data.py), every frame of
build_source_df (fetch_cbs_renewable.py), and the frame of
fetch_energy_source_data (fetch_cbs_renewable_data.py). -/
theorem claim_C10 :
    (∀ rows : List Row, List.Pairwise (fun a b : Row => a.year ≤ b.year) (sortByYear rows)) ∧
    (∀ (recs : List RawRec) (frames : Frames), fetch_and_process_data recs = Except.ok frames →
      ∀ (sheet : String) (df : Frame), (sheet, df) ∈ frames →
        List.Pairwise (fun a b : Row => a.year ≤ b.year) df) ∧
    (∀ (rows : List (TypedRec × Int)) (key : String),
      List.Pairwise (fun a b : Row => a.year ≤ b.year) (build_source_df rows key)) ∧
    (∀ (recs : List RDRec) (frame : Frame), fetch_energy_source_data recs = Except.ok frame →
      List.Pairwise (fun a b : Row => a.year ≤ b.year) frame) := by
  refine ⟨sortByYear_sorted, ?_, ?_, ?_⟩
  · intro recs frames h sheet df hmem
    rcases fapd_ok_inv h with ⟨rows, _, rfl⟩
    simp only [List.mem_map] at hmem
    rcases hmem with ⟨sh, hsh, heq⟩
    have hdf : df = sortByYear (rows.filterMap (fun p =>
        if p.1 == some sh then some p.2 else Option.none)) := by
      have := congrArg Prod.snd heq
      simpa using this.symm
    rw [hdf]
    exact sortByYear_sorted _
  · intro rows key
    unfold build_source_df
    exact sortByYear_sorted _
  · intro recs frame h
    simp only [fetch_energy_source_data] at h
    split at h
    · exact absurd h (by simp)
    · split at h
      · exact absurd h (by simp)
      · simp only [Except.ok.injEq] at h
        rw [← h]
        exact sortByYear_sorted _

/-- C10, witness: records arriving in descending year order leave the
pipeline as an ascending year-indexed frame. -/
theorem claim_C10_witness :
    fetch_energy_source_data unorderedRDRecs = Except.ok sortedRDFrame ∧
    List.Pairwise (fun a b : Row => a.year ≤ b.year) sortedRDFrame :=
  ⟨by decide, claim_C10.2.2.2 unorderedRDRecs sortedRDFrame (by decide)⟩

end RenGen
